import Mathlib

/-!
Verification development for the auditwheel-repair pipeline
(`auditwheel-repair.py`): a shallow embedding of the per-wheel
classifier `process_wheel`, the checkpoint handling in `main`, and the
summary replay, with theorems about the pipeline's documented
properties.

External effects (download, the `auditwheel repair` subprocess, venv
creation, `pip install`, upload) are modelled by an oracle record
`WheelEnv` giving the observable result of each call made while
processing one wheel.  Python exceptions are modelled by `Except`;
the net mutation of the global `SUMMARY` dictionary along a normally
returning path is threaded through as a functional delta.
-/

namespace AuditwheelRepair

/-! ### Python string primitives used by the script -/

/-- Python whitespace characters recognised by `str.strip()`. -/
def isPySpace (c : Char) : Bool :=
  c = ' ' || c = '\t' || c = '\n' || c = '\r' || c = '\x0b' || c = '\x0c'

/-- Python `str.strip()` with no argument: remove leading and trailing
whitespace. -/
def pyStrip (s : String) : String :=
  ⟨((s.toList.dropWhile isPySpace).reverse.dropWhile isPySpace).reverse⟩

/-- Worker for `pySplitlines`: scan the characters, emitting a line at
each line break; at end of input the pending line is emitted only when
it is nonempty (so `""` yields no lines, matching Python). -/
def splitlinesGo : List Char → List Char → List String
  | [], acc => if acc.isEmpty then [] else [⟨acc.reverse⟩]
  | '\r' :: '\n' :: t, acc => (⟨acc.reverse⟩ : String) :: splitlinesGo t []
  | '\r' :: t, acc => (⟨acc.reverse⟩ : String) :: splitlinesGo t []
  | '\n' :: t, acc => (⟨acc.reverse⟩ : String) :: splitlinesGo t []
  | c :: t, acc => splitlinesGo t (c :: acc)

/-- Python `str.splitlines()` restricted to the `\n`, `\r`, `\r\n`
line breaks. -/
def pySplitlines (s : String) : List String :=
  splitlinesGo s.toList []

/-- `listStarts hay needle`: `needle` is a leading run of `hay`. -/
def listStarts : List Char → List Char → Bool
  | _, [] => true
  | [], _ :: _ => false
  | a :: as, b :: bs => a = b && listStarts as bs

/-- `listHas hay needle`: `needle` occurs contiguously in `hay`. -/
def listHas : List Char → List Char → Bool
  | [], needle => needle.isEmpty
  | h :: t, needle => listStarts (h :: t) needle || listHas t needle

/-- Python `needle in hay` on strings (contiguous substring test). -/
def strIn (needle hay : String) : Bool :=
  listHas hay.toList needle.toList

/-- Python `str.isdigit()` on ASCII: nonempty and all digits. -/
def pyIsdigit (s : String) : Bool :=
  !s.isEmpty && s.toList.all Char.isDigit

/-- Python `s.endswith(suffix)`. -/
def strEndsWith (s suffix : String) : Bool :=
  listStarts s.toList.reverse suffix.toList.reverse

/-- Python `s.startswith(p)`. -/
def strStartsWith (s p : String) : Bool :=
  listStarts s.toList p.toList

/-- Python `s[n:]`. -/
def strDrop (s : String) (n : Nat) : String :=
  ⟨s.toList.drop n⟩

/-- ASCII lowering of one character, as Python `str.lower()` does on
the ASCII diagnostics this script handles. -/
def charLower (c : Char) : Char :=
  if 'A' ≤ c && c ≤ 'Z' then Char.ofNat (c.toNat + 32) else c

/-- Python `s.lower()` (ASCII). -/
def pyLower (s : String) : String :=
  ⟨s.toList.map charLower⟩

/-- Worker for `pySplitDash`. -/
def splitDashGo : List Char → List Char → List String
  | [], acc => [⟨acc.reverse⟩]
  | '-' :: t, acc => (⟨acc.reverse⟩ : String) :: splitDashGo t []
  | c :: t, acc => splitDashGo t (c :: acc)

/-- Python `s.split("-")`. -/
def pySplitDash (s : String) : List String :=
  splitDashGo s.toList []

/-! ### Interpreter-tag resolution (`PYTHON_BIN_MAP`, `extract_python_tag`,
and lines 191-200 of `process_wheel`) -/

/-- `PYTHON_BIN_MAP`: python binary for each supported interpreter tag. -/
def PYTHON_BIN_MAP : List (String × String) :=
  [("cp39", "/opt/python/cp39-cp39/bin/python"),
   ("cp310", "/opt/python/cp310-cp310/bin/python"),
   ("cp311", "/opt/python/cp311-cp311/bin/python"),
   ("cp312", "/opt/python/cp312-cp312/bin/python"),
   ("cp313", "/opt/python/cp313-cp313/bin/python")]

/-- Python `k in d` for the association-list model of a dict. -/
def mapContains (m : List (String × String)) (k : String) : Bool :=
  m.any (fun p => p.1 = k)

/-- `extract_python_tag`: first `-`-separated token of the filename of
the form `cp` followed by digits. -/
def extract_python_tag (name : String) : Option String :=
  (pySplitDash name).find? (fun p => strStartsWith p "cp" && pyIsdigit (strDrop p 2))

/-- Python `py_tag in PYTHON_BIN_MAP`, where `py_tag` may be `None`
(`None in d` is false). -/
def inMap (t : Option String) : Bool :=
  match t with
  | some s => mapContains PYTHON_BIN_MAP s
  | none => false

/-- Lines 193-197 of `process_wheel`: when the filename has no tag,
the first tag of the descending preference list that is a key of
`PYTHON_BIN_MAP`. -/
def fallbackTag : Option String :=
  ["cp313", "cp312", "cp311", "cp310", "cp39"].find?
    (fun t => mapContains PYTHON_BIN_MAP t)

/-- Lines 199-200 of `process_wheel`: for `abi3` wheels whose resolved
tag is not a key of the map (or is `None`), fall back to `cp311`. -/
def resolveAbi3 (name : String) (t1 : Option String) : Option String :=
  if strIn "abi3" name && !(inMap t1) then some "cp311" else t1

/-- Lines 191-200 of `process_wheel`: parse the tag from the filename,
applying the fallback list when absent and the `abi3` default last. -/
def resolve_py_tag (name : String) : Option String :=
  resolveAbi3 name
    (match extract_python_tag name with
     | none => fallbackTag
     | some t => some t)

/-! ### Data model of one wheel's processing -/

/-- Process-wide `SUMMARY` counters (the literal at the top of the
script initialises every counter to 0). -/
structure Summary where
  total : Nat
  audit_success : Nat
  audit_failed : Nat
  pip_success : Nat
  pip_failed : Nat
  pip_skipped : Nat
  no_elf : Nat
  native_repaired : Nat
  already_processed : Nat
  newly_processed : Nat
deriving DecidableEq

/-- The initial `SUMMARY` dictionary: every counter 0. -/
def initSummary : Summary := ⟨0, 0, 0, 0, 0, 0, 0, 0, 0, 0⟩

/-- Python exceptions that can escape the modelled calls. -/
inductive PyErr where
  /-- `IndexError` from `[-1]` on an empty `splitlines()` list. -/
  | indexError
  /-- `ValueError` from unpacking `name.split("-")[0:2]` into two names. -/
  | valueError
  /-- `RuntimeError` raised by `upload` on a non-200/201 response. -/
  | uploadError
  /-- a requests exception raised inside `download`. -/
  | downloadError
  /-- `CalledProcessError` from `create_venv` / `upgrade_pip`. -/
  | venvError
deriving DecidableEq

/-- Oracle for the external effects observed while processing a single
wheel.  At most one repair call, one venv/pip sequence and one upload
happen per wheel, so one observation of each suffices. -/
structure WheelEnv where
  /-- `download` returns normally. -/
  download_ok : Bool
  /-- exit code of the `auditwheel repair` subprocess. -/
  repair_returncode : Int
  /-- captured stderr of the repair subprocess. -/
  repair_stderr : String
  /-- `os.listdir` of the repair output directory. -/
  out_listing : List String
  /-- `namelist()` of the zip archive of the first repaired wheel. -/
  zip_namelist : List String
  /-- `create_venv` and `upgrade_pip` both return normally. -/
  venv_ok : Bool
  /-- exit code of the `pip install --no-deps` subprocess. -/
  pip_returncode : Int
  /-- captured stderr of the pip subprocess. -/
  pip_stderr : String
  /-- `upload` receives a 200/201 response. -/
  upload_ok : Bool
deriving DecidableEq

/-- The six-tuple returned by `process_wheel`. -/
structure Outcome where
  name : String
  audit_status : String
  audit_msg : String
  pip_status : String
  pip_msg : String
  bundled_libs : List String
deriving DecidableEq

/-- Result of one `process_wheel` call: the returned outcome plus the
observable side effects (wheels passed to `upload`, wheels passed to
`pip_install`, both identified by their directory entry / basename, and
the net `SUMMARY` mutation of this normally returning path). -/
structure ProcResult where
  outcome : Outcome
  uploads : List String
  pip_calls : List String
  delta : Summary
deriving DecidableEq

/-- The no-arch filename test at line 213. -/
def isNoArch (name : String) : Bool :=
  strEndsWith name "-py3-none-any.whl" || strEndsWith name "-py2.py3-none-any.whl"

/-- `res.stderr.strip().splitlines()[-1]`: the last line of the stripped
text, or an `IndexError` when there is none. -/
def lastLine (s : String) : Except PyErr String :=
  match (pySplitlines (pyStrip s)).getLast? with
  | some l => Except.ok l
  | none => Except.error PyErr.indexError

/-- Lines 278-334 of `process_wheel`: the part after the repair call
that did not return early with a generic failure (reached both on repair
success and on the no-ELF fall-through, with `audit_status = "SUCCESS"`
and `audit_msg` as set by the branch taken). -/
def afterRepair (env : WheelEnv) (name : String) (py_tag : Option String)
    (audit_msg : String) (s : Summary) : Except PyErr ProcResult :=
  match env.out_listing.filter (fun f => strEndsWith f ".whl") with
  | [] =>
      -- empty-output enforcement: overwrite status with FAILED
      Except.ok ⟨⟨name, "FAILED", "auditwheel succeeded but produced no manylinux wheel",
          "SKIPPED", "", []⟩, [], [],
        (⟨s.total, s.audit_success, s.audit_failed + 1, s.pip_success, s.pip_failed,
          s.pip_skipped + 1, s.no_elf, s.native_repaired, s.already_processed,
          s.newly_processed⟩ : Summary)⟩
  | wheel_to_test :: _ =>
      if inMap py_tag then
        if env.venv_ok = false then Except.error PyErr.venvError else
        if env.pip_returncode = 0 then
          if env.upload_ok = false then Except.error PyErr.uploadError else
          Except.ok ⟨⟨name, "SUCCESS", audit_msg, "SUCCESS", "",
              env.zip_namelist.filter (fun n => strEndsWith n ".so")⟩,
            [wheel_to_test], [wheel_to_test],
            (⟨s.total, s.audit_success + 1, s.audit_failed, s.pip_success + 1, s.pip_failed,
              s.pip_skipped, s.no_elf, s.native_repaired + 1, s.already_processed,
              s.newly_processed⟩ : Summary)⟩
        else
          match lastLine env.pip_stderr with
          | Except.error e => Except.error e
          | Except.ok m =>
              Except.ok ⟨⟨name, "SUCCESS", audit_msg, "FAILED", m,
                  env.zip_namelist.filter (fun n => strEndsWith n ".so")⟩,
                [], [wheel_to_test],
                (⟨s.total, s.audit_success + 1, s.audit_failed, s.pip_success, s.pip_failed + 1,
                  s.pip_skipped, s.no_elf, s.native_repaired + 1, s.already_processed,
                  s.newly_processed⟩ : Summary)⟩
      else
        Except.ok ⟨⟨name, "SUCCESS", audit_msg, "SKIPPED", "",
            env.zip_namelist.filter (fun n => strEndsWith n ".so")⟩,
          [], [],
          (⟨s.total, s.audit_success + 1, s.audit_failed, s.pip_success, s.pip_failed,
            s.pip_skipped, s.no_elf, s.native_repaired + 1, s.already_processed,
            s.newly_processed⟩ : Summary)⟩

/-- Lines 213-249 of `process_wheel`: the no-arch shortcut (upload the
original wheel immediately, then pip-test it when the tag is known). -/
def noarchPath (env : WheelEnv) (name : String) : Except PyErr ProcResult :=
  if env.upload_ok = false then Except.error PyErr.uploadError else
  if inMap (resolve_py_tag name) then
    if env.venv_ok = false then Except.error PyErr.venvError else
    if env.pip_returncode = 0 then
      Except.ok ⟨⟨name, "SUCCESS", "no-arch wheel (auditwheel skipped)", "SUCCESS", "", []⟩,
        [name], [name],
        (⟨1, 1, 0, 1, 0, 0, 1, 0, 0, 0⟩ : Summary)⟩
    else
      match lastLine env.pip_stderr with
      | Except.error e => Except.error e
      | Except.ok m =>
          Except.ok ⟨⟨name, "SUCCESS", "no-arch wheel (auditwheel skipped)", "FAILED", m, []⟩,
            [name], [name],
            (⟨1, 1, 0, 0, 1, 0, 1, 0, 0, 0⟩ : Summary)⟩
  else
    Except.ok ⟨⟨name, "SUCCESS", "no-arch wheel (auditwheel skipped)", "SKIPPED", "", []⟩,
      [name], [],
      (⟨1, 1, 0, 0, 0, 0, 1, 0, 0, 0⟩ : Summary)⟩

/-- Lines 254-334 of `process_wheel`: the native-repair path (repair
call, no-ELF detection on a nonzero exit, then `afterRepair`). -/
def nativePath (env : WheelEnv) (name : String) : Except PyErr ProcResult :=
  if env.repair_returncode ≠ 0 then
    if strIn "no elf" (pyLower env.repair_stderr) then
      -- no-ELF branch sets SUCCESS and falls through to line 278
      afterRepair env name (resolve_py_tag name) "no ELF files found (no-arch wheel)"
        ⟨1, 1, 0, 0, 0, 0, 1, 0, 0, 0⟩
    else
      match lastLine env.repair_stderr with
      | Except.error e => Except.error e
      | Except.ok m =>
          Except.ok ⟨⟨name, "FAILED", m, "SKIPPED", "", []⟩, [], [],
            (⟨1, 0, 1, 0, 0, 1, 0, 0, 0, 0⟩ : Summary)⟩
  else
    afterRepair env name (resolve_py_tag name) "" ⟨1, 0, 0, 0, 0, 0, 0, 0, 0, 0⟩

/-- `process_wheel`: download, classify (no-arch shortcut / native
repair), pip install test, upload.  Cleanup of temp files is
best-effort in the source and has no observable effect here.  `SUMMARY`
mutations made on a path that subsequently raises are not recorded (the
delta travels with the returned value). -/
def process_wheel (env : WheelEnv) (name : String) : Except PyErr ProcResult :=
  -- every delta starts from `SUMMARY["total"] += 1`
  if env.download_ok = false then Except.error PyErr.downloadError else
  if (pySplitDash name).length < 2 then Except.error PyErr.valueError else
  if isNoArch name then noarchPath env name else nativePath env name

/-! ### Checkpoint store and batch loop (`main`) -/

/-- One row of the `wheel_status.csv` table. -/
structure StatusRow where
  wheel_path : String
  auditwheel_status : String
  auditwheel_message : String
  pip_install_status : String
  pip_install_message : String
deriving DecidableEq

/-- One result row of the artifact metadata query. -/
structure Item where
  repo : String
  path : String
  name : String
deriving DecidableEq

/-- `d[k] = v` on the insertion-ordered dict model: replace in place
when the key is present, append otherwise. -/
def dictSet {α : Type} (m : List (String × α)) (k : String) (v : α) :
    List (String × α) :=
  if m.any (fun p => p.1 = k) then
    m.map (fun p => if p.1 = k then (k, v) else p)
  else m ++ [(k, v)]

/-- Python `k in d` on the dict model. -/
def dictHasKey {α : Type} (m : List (String × α)) (k : String) : Bool :=
  m.any (fun p => p.1 = k)

/-- In-memory checkpoint state: `existing_status`, `existing_all`,
`existing_ext` (insertion-ordered dicts). -/
structure CkState where
  status : List (String × StatusRow)
  all : List (String × List String)
  ext : List (String × List String)
deriving DecidableEq

/-- Durable bytes of the three checkpoint files. -/
structure CkFiles where
  status_csv : String
  all_csv : String
  ext_csv : String
deriving DecidableEq

/-- One CSV field under the default `csv.writer` dialect: quote only
when the field holds a delimiter, quote char or line break; double
embedded quotes. -/
def csvField (s : String) : String :=
  if s.toList.any (fun c => c = ',' || c = '"' || c = '\n' || c = '\r') then
    "\"" ++ (⟨s.toList.foldr (fun c acc => if c = '"' then '"' :: '"' :: acc else c :: acc) []⟩ : String) ++ "\""
  else s

/-- One `csv.writer.writerow` line (default `\r\n` terminator). -/
def csvRow (fields : List String) : String :=
  String.intercalate "," (fields.map csvField) ++ "\r\n"

/-- Serialise `existing_status` as `wheel_status.csv` is rewritten. -/
def serializeStatus (status : List (String × StatusRow)) : String :=
  csvRow ["wheel_path", "auditwheel_status", "auditwheel_message",
          "pip_install_status", "pip_install_message"] ++
  String.join (status.map (fun p =>
    csvRow [p.2.wheel_path, p.2.auditwheel_status, p.2.auditwheel_message,
            p.2.pip_install_status, p.2.pip_install_message]))

/-- Serialise a native-library table (`native_libs_all.csv` /
`native_libs_external.csv`): one row per (wheel, library). -/
def serializeLibs (m : List (String × List String)) : String :=
  csvRow ["wheel_path", "native_library"] ++
  String.join (m.map (fun p =>
    String.join (p.2.map (fun lib => csvRow [p.1, lib]))))

/-- Full rewrite of the three checkpoint files from the in-memory maps
(lines 460-495). -/
def flushFiles (st : CkState) : CkFiles :=
  ⟨serializeStatus st.status, serializeLibs st.all, serializeLibs st.ext⟩

/-- Lines 441-458: merge one completed wheel's result into the three
in-memory maps (`"not found"` sentinel when no bundled libs). -/
def mergeResult (st : CkState) (r : ProcResult) : CkState :=
  let name := r.outcome.name
  let row : StatusRow := ⟨name, r.outcome.audit_status, r.outcome.audit_msg,
    r.outcome.pip_status, r.outcome.pip_msg⟩
  let libs := if r.outcome.bundled_libs.isEmpty then ["not found"]
              else r.outcome.bundled_libs
  ⟨dictSet st.status name row, dictSet st.all name libs, dictSet st.ext name libs⟩

/-- The result-collection loop of `main`: for each completed future (in
completion order), `f.result()` re-raises any exception of
`process_wheel`, aborting the loop; otherwise the result is merged and
all three files are rewritten.  Returns the final in-memory state, the
final file bytes and the number of results collected. -/
def batchLoop (results : Item → Except PyErr ProcResult) :
    List Item → CkState → CkFiles → Except PyErr (CkState × CkFiles × Nat)
  | [], st, files => Except.ok (st, files, 0)
  | w :: ws, st, _files =>
      match results w with
      | Except.error e => Except.error e
      | Except.ok r =>
          let st' := mergeResult st r
          let files' := flushFiles st'
          match batchLoop results ws st' files' with
          | Except.error e => Except.error e
          | Except.ok (st'', files'', n) => Except.ok (st'', files'', n + 1)

/-- Line 410: `sorted(wheels, key=lambda w: w["name"])`. -/
def sortByName (ws : List Item) : List Item :=
  ws.mergeSort (fun a b => decide (a.name ≤ b.name))

/-- Line 412: the work queue excludes every wheel whose filename is
already a key of the loaded status table. -/
def to_process (wheels : List Item) (status : List (String × StatusRow)) :
    List Item :=
  (sortByName wheels).filter (fun w => !(dictHasKey status w.name))

/-- One pipeline run after setup: compute the work queue from the
loaded status table and run the collection loop over it. -/
def runBatch (results : Item → Except PyErr ProcResult) (wheels : List Item)
    (st : CkState) (files : CkFiles) : Except PyErr (CkState × CkFiles × Nat) :=
  batchLoop results (to_process wheels st.status) st files

/-! ### Summary replay at startup (lines 366-381) -/

/-- Replay one loaded status row into the `SUMMARY` counters. -/
def replayRow (s : Summary) (row : StatusRow) : Summary :=
  let s :=
    if row.auditwheel_status = "SUCCESS" then
      { s with audit_success := s.audit_success + 1 }
    else if row.auditwheel_status = "FAILED" then
      { s with audit_failed := s.audit_failed + 1 }
    else s
  let s :=
    if row.pip_install_status = "SUCCESS" then
      { s with pip_success := s.pip_success + 1 }
    else if row.pip_install_status = "FAILED" then
      { s with pip_failed := s.pip_failed + 1 }
    else if row.pip_install_status = "SKIPPED" then
      { s with pip_skipped := s.pip_skipped + 1 }
    else s
  if strIn "no elf" (pyLower row.auditwheel_message) then
    { s with no_elf := s.no_elf + 1 }
  else s

/-- Replay the loaded checkpoint rows into the freshly initialised
`SUMMARY`, before any new wheel is processed. -/
def replaySummary (rows : List StatusRow) : Summary :=
  rows.foldl replayRow initSummary

/-! ### Concrete instances used by the claim theorems and
witnesses -/

def c1Env : WheelEnv :=
  ⟨true, 1, "ERROR: no ELF executable or shared library found in wheel", [], [], true, 0, "", true⟩

def c1Name : String := "foo-1.0-cp311-cp311-linux_ppc64le.whl"

def c2Item1 : Item := ⟨"r", "p", "a-1.0-cp311-cp311-linux_ppc64le.whl"⟩

def c2Item2 : Item := ⟨"r", "p", "b-1.0-py3-none-any.whl"⟩

def c2Result : ProcResult :=
  ⟨⟨"b-1.0-py3-none-any.whl", "SUCCESS", "no-arch wheel (auditwheel skipped)", "SKIPPED", "", []⟩,
    ["b-1.0-py3-none-any.whl"], [], ⟨1, 1, 0, 0, 0, 0, 1, 0, 0, 0⟩⟩

def c2Results (w : Item) : Except PyErr ProcResult :=
  if w.name = "a-1.0-cp311-cp311-linux_ppc64le.whl" then Except.error PyErr.downloadError
  else Except.ok c2Result

def c3Env : WheelEnv :=
  ⟨true, 0, "", ["foo-1.0-cp38-cp38-manylinux_2_34_ppc64le.whl"], ["foo/_native.so"], true, 0, "", true⟩

def c3Name : String := "foo-1.0-cp38-cp38-linux_ppc64le.whl"

def c3Res : ProcResult :=
  ⟨⟨c3Name, "SUCCESS", "", "SKIPPED", "", ["foo/_native.so"]⟩, [], [],
    ⟨1, 1, 0, 0, 0, 0, 0, 1, 0, 0⟩⟩

def c4Item : Item := ⟨"repo", "path", "foo-1.0-cp311-cp311-linux_ppc64le.whl"⟩

def c4St : CkState :=
  ⟨[("foo-1.0-cp311-cp311-linux_ppc64le.whl",
     ⟨"foo-1.0-cp311-cp311-linux_ppc64le.whl", "FAILED", "boom", "SKIPPED", ""⟩)], [], []⟩

def c4Files : CkFiles := ⟨"status-bytes", "all-bytes", "ext-bytes"⟩

def c5Env : WheelEnv := ⟨true, 1, "something went wrong", [], [], true, 0, "", true⟩

def c5Res : ProcResult :=
  ⟨⟨"foo-1.0-cp311-cp311-linux_ppc64le.whl", "FAILED", "something went wrong", "SKIPPED", "", []⟩,
    [], [], ⟨1, 0, 1, 0, 0, 1, 0, 0, 0, 0⟩⟩

def c6Env : WheelEnv := ⟨true, 0, "", ["README.txt"], [], true, 0, "", true⟩

def c6Name : String := "foo-1.0-cp311-cp311-linux_ppc64le.whl"

def c7Env : WheelEnv := ⟨true, 0, "", [], [], true, 0, "", true⟩

def c7Name : String := "foo-1.0-py3-none-any.whl"

def c7Res : ProcResult :=
  ⟨⟨c7Name, "SUCCESS", "no-arch wheel (auditwheel skipped)", "SUCCESS", "", []⟩,
    [c7Name], [c7Name], ⟨1, 1, 0, 1, 0, 0, 1, 0, 0, 0⟩⟩

def c9Env : WheelEnv := ⟨true, 1, " \n ", [], [], true, 0, "", true⟩

def c9Env2 : WheelEnv :=
  ⟨true, 0, "", ["foo-1.0-cp311-cp311-manylinux_2_34_ppc64le.whl"], [], true, 1, "", true⟩


/-! ### Helper lemmas -/

/-- A whitespace-only captured stream has no lines: `strip()` empties it
and `splitlines()` of the empty string is `[]`, so `[-1]` raises. -/
theorem lastLine_of_space (s : String) (h : s.toList.all isPySpace = true) :
    lastLine s = Except.error PyErr.indexError := by
  have h1 : pyStrip s = "" := by
    unfold pyStrip
    have h2 : s.toList.dropWhile isPySpace = [] := by
      rw [List.dropWhile_eq_nil_iff]
      intro x hx
      exact List.all_eq_true.mp h x hx
    rw [h2]
    rfl
  unfold lastLine
  rw [h1]
  rfl

/-- One step of the startup replay: `audit_success` grows by one exactly
on a `SUCCESS` repair row, `audit_failed` by one exactly on a `FAILED`
row. -/
theorem replayRow_audit (s : Summary) (row : StatusRow) :
    (replayRow s row).audit_success
      = s.audit_success + (if row.auditwheel_status = "SUCCESS" then 1 else 0)
  ∧ (replayRow s row).audit_failed
      = s.audit_failed + (if row.auditwheel_status = "FAILED" then 1 else 0) := by
  unfold replayRow
  split_ifs <;> simp_all

/-- The startup replay folded from an arbitrary accumulator counts
`SUCCESS` and `FAILED` repair rows. -/
theorem replay_foldl_audit (rows : List StatusRow) (s : Summary) :
    ((rows.foldl replayRow s).audit_success
      = s.audit_success + rows.countP (fun row => row.auditwheel_status == "SUCCESS"))
  ∧ ((rows.foldl replayRow s).audit_failed
      = s.audit_failed + rows.countP (fun row => row.auditwheel_status == "FAILED")) := by
  induction rows generalizing s with
  | nil => simp
  | cons row rest ih =>
      rcases ih (replayRow s row) with ⟨ih1, ih2⟩
      rcases replayRow_audit s row with ⟨h1, h2⟩
      constructor
      · rw [List.foldl_cons, ih1, h1, List.countP_cons]
        by_cases hs : row.auditwheel_status = "SUCCESS" <;> simp [hs] <;> omega
      · rw [List.foldl_cons, ih2, h2, List.countP_cons]
        by_cases hs : row.auditwheel_status = "FAILED" <;> simp [hs] <;> omega

/-! ### Theorems -/

/-- Claim C1 (code bug): a repair-tool failure whose stderr contains the
no-binary-content marker is first recorded as SUCCESS, but control falls
through to the empty-output check, which overwrites the outcome with
FAILED and skips the install test — and the returned summary delta
counts the same wheel both in `audit_success` and in `audit_failed`. -/
theorem no_elf_fallthrough_returns_failed :
    process_wheel c1Env c1Name
      = Except.ok ⟨⟨c1Name, "FAILED",
          "auditwheel succeeded but produced no manylinux wheel", "SKIPPED", "", []⟩,
        [], [], ⟨1, 1, 1, 0, 0, 1, 1, 0, 0, 0⟩⟩ := rfl

/-- Claim C2, counterexample: with two artifacts where the first raises
a download error and the second completes, the collection loop of
`main` re-raises the first exception; the run aborts and the second
artifact's outcome is never merged or flushed. -/
theorem batch_abort_cex :
    batchLoop c2Results [c2Item1, c2Item2] ⟨[], [], []⟩ ⟨"", "", ""⟩
      = Except.error PyErr.downloadError := rfl

/-- Claim C2 (amended): an exception raised while processing one
artifact aborts the result-collection loop at that artifact —
`f.result()` re-raises it, no further outcome is merged or flushed, and
the exception surfaces past the batch boundary. -/
theorem artifact_error_aborts_batch (results : Item → Except PyErr ProcResult)
    (w : Item) (ws : List Item) (st : CkState) (files : CkFiles) (e : PyErr)
    (h : results w = Except.error e) :
    batchLoop results (w :: ws) st files = Except.error e := by
  unfold batchLoop
  rw [h]

/-- Witness for `artifact_error_aborts_batch` at a concrete input. -/
theorem artifact_error_aborts_batch_witness :
    batchLoop (fun _ => Except.error PyErr.downloadError) [⟨"r", "p", "x"⟩] ⟨[], [], []⟩
      ⟨"", "", ""⟩ = Except.error PyErr.downloadError :=
  artifact_error_aborts_batch (fun _ => Except.error PyErr.downloadError)
    ⟨"r", "p", "x"⟩ [] ⟨[], [], []⟩ ⟨"", "", ""⟩ PyErr.downloadError rfl

/-- Claim C3, counterexample: a native wheel whose repair succeeded but
whose interpreter tag (`cp38`) has no environment template gets install
status SKIPPED and is NOT uploaded (`uploads = []`), contradicting the
claim that it is still uploaded. -/
theorem skipped_install_not_uploaded_cex :
    process_wheel c3Env c3Name = Except.ok c3Res ∧ c3Res.outcome.audit_status = "SUCCESS"
  ∧ c3Res.outcome.pip_status = "SKIPPED" ∧ c3Res.uploads = [] :=
  ⟨rfl, rfl, rfl, rfl⟩

/-- Claim C3 (amended): on the native-repair path the repaired artifact
is uploaded only when the install test runs and succeeds; an artifact
whose install test is SKIPPED is not uploaded. -/
theorem native_upload_only_on_install_success (env : WheelEnv) (name : String) (r : ProcResult)
    (hna : isNoArch name = false)
    (h : process_wheel env name = Except.ok r)
    (hskip : r.outcome.pip_status = "SKIPPED") :
    r.uploads = [] := by
  unfold process_wheel at h
  repeat' split at h
  any_goals exact Except.noConfusion h
  · simp_all
  · unfold nativePath afterRepair at h
    repeat' split at h
    any_goals exact Except.noConfusion h
    all_goals (injection h with h; subst h; first | rfl | simp at hskip)

/-- Witness for `native_upload_only_on_install_success`. -/
theorem native_upload_only_on_install_success_witness : c3Res.uploads = [] :=
  native_upload_only_on_install_success c3Env c3Name c3Res rfl rfl rfl

/-- Claim C4 (confirmed): a second run against an unchanged artifact set
and unchanged checkpoint has an empty work queue — every artifact whose
filename is a key of the status table is excluded regardless of its
recorded statuses — so zero artifacts are processed and the three
checkpoint files are byte-for-byte unchanged. -/
theorem second_run_is_noop (results : Item → Except PyErr ProcResult)
    (wheels : List Item) (st : CkState) (files : CkFiles)
    (h : ∀ w ∈ wheels, dictHasKey st.status w.name = true) :
    to_process wheels st.status = []
  ∧ runBatch results wheels st files = Except.ok (st, files, 0) := by
  have htp : to_process wheels st.status = [] := by
    unfold to_process
    rw [List.filter_eq_nil_iff]
    intro a ha
    have ham : a ∈ wheels := by
      unfold sortByName at ha
      exact List.mem_mergeSort.mp ha
    simp [h a ham]
  refine ⟨htp, ?_⟩
  unfold runBatch
  rw [htp]
  rfl

/-- Witness for `second_run_is_noop`: one artifact already present in
the status table with a FAILED row is excluded and nothing is written. -/
theorem second_run_is_noop_witness :
    to_process [c4Item] c4St.status = []
  ∧ runBatch (fun _ => Except.error PyErr.downloadError) [c4Item] c4St c4Files
      = Except.ok (c4St, c4Files, 0) :=
  second_run_is_noop (fun _ => Except.error PyErr.downloadError) [c4Item] c4St c4Files
    (by decide)

/-- Claim C5 (confirmed): an outcome recorded with repair status FAILED
implies no upload happened while processing that wheel. -/
theorem failed_repair_never_uploaded (env : WheelEnv) (name : String) (r : ProcResult)
    (h : process_wheel env name = Except.ok r)
    (hf : r.outcome.audit_status = "FAILED") :
    r.uploads = [] := by
  unfold process_wheel at h
  repeat' split at h
  any_goals exact Except.noConfusion h
  · unfold noarchPath at h
    repeat' split at h
    any_goals exact Except.noConfusion h
    all_goals (injection h with h; subst h; simp at hf)
  · unfold nativePath afterRepair at h
    repeat' split at h
    any_goals exact Except.noConfusion h
    all_goals (injection h with h; subst h; first | rfl | simp at hf)

/-- Witness for `failed_repair_never_uploaded`. -/
theorem failed_repair_never_uploaded_witness : c5Res.uploads = [] :=
  failed_repair_never_uploaded c5Env "foo-1.0-cp311-cp311-linux_ppc64le.whl" c5Res rfl rfl

/-- Claim C6 (confirmed): a repair-tool success whose output directory
holds no `.whl` file yields repair FAILED with the exact message
"auditwheel succeeded but produced no manylinux wheel", install test
SKIPPED and an empty native-library list (and no upload). -/
theorem empty_output_is_failed (env : WheelEnv) (name : String)
    (hdl : env.download_ok = true)
    (hparts : 2 ≤ (pySplitDash name).length)
    (hna : isNoArch name = false)
    (hrc : env.repair_returncode = 0)
    (hout : env.out_listing.filter (fun f => strEndsWith f ".whl") = []) :
    process_wheel env name
      = Except.ok ⟨⟨name, "FAILED", "auditwheel succeeded but produced no manylinux wheel",
          "SKIPPED", "", []⟩, [], [], ⟨1, 0, 1, 0, 0, 1, 0, 0, 0, 0⟩⟩ := by
  have hlt : ¬ (pySplitDash name).length < 2 := by omega
  simp [process_wheel, nativePath, afterRepair, hdl, hna, hrc, hout, hlt]

/-- Witness for `empty_output_is_failed`. -/
theorem empty_output_is_failed_witness :
    process_wheel c6Env c6Name
      = Except.ok ⟨⟨c6Name, "FAILED", "auditwheel succeeded but produced no manylinux wheel",
          "SKIPPED", "", []⟩, [], [], ⟨1, 0, 1, 0, 0, 1, 0, 0, 0, 0⟩⟩ :=
  empty_output_is_failed c6Env c6Name rfl (by decide) rfl rfl rfl

/-- Claim C7 (confirmed): a no-arch wheel gets repair SUCCESS, an empty
native-library list, the original wheel uploaded, and — when its
resolved tag has an environment template — the install test run on the
original wheel. -/
theorem noarch_shortcut (env : WheelEnv) (name : String) (r : ProcResult)
    (hna : isNoArch name = true)
    (h : process_wheel env name = Except.ok r) :
    r.outcome.audit_status = "SUCCESS" ∧ r.outcome.bundled_libs = []
  ∧ r.uploads = [name] ∧ (inMap (resolve_py_tag name) = true → r.pip_calls = [name]) := by
  unfold process_wheel at h
  repeat' split at h
  any_goals exact Except.noConfusion h
  unfold noarchPath at h
  repeat' split at h
  any_goals exact Except.noConfusion h
  all_goals (injection h with h; subst h)
  all_goals refine ⟨rfl, rfl, rfl, fun hc => ?_⟩
  all_goals first | rfl | simp_all

/-- Witness for `noarch_shortcut`. -/
theorem noarch_shortcut_witness :
    c7Res.outcome.audit_status = "SUCCESS" ∧ c7Res.outcome.bundled_libs = []
  ∧ c7Res.uploads = [c7Name] ∧ (inMap (resolve_py_tag c7Name) = true → c7Res.pip_calls = [c7Name]) :=
  noarch_shortcut c7Env c7Name c7Res rfl rfl

/-- Claim C8 (confirmed): after replaying a loaded checkpoint into the
fresh summary, `audit_success` equals the number of rows whose repair
status is SUCCESS and `audit_failed` the number whose repair status is
FAILED, before any new artifact is processed. -/
theorem summary_reconciliation (rows : List StatusRow) :
    (replaySummary rows).audit_success
      = rows.countP (fun row => row.auditwheel_status == "SUCCESS")
  ∧ (replaySummary rows).audit_failed
      = rows.countP (fun row => row.auditwheel_status == "FAILED") := by
  have h := replay_foldl_audit rows initSummary
  simpa [replaySummary, initSummary] using h

/-- Claim C9 (confirmed): a repair-tool failure with whitespace-only
stderr (no no-ELF marker) makes `process_wheel` raise `IndexError`
instead of returning a FAILED outcome, and a failed install test with
whitespace-only stderr does the same. -/
theorem empty_stderr_raises_index_error (env env2 : WheelEnv) (name name2 : String)
    (hdl : env.download_ok = true) (hparts : 2 ≤ (pySplitDash name).length)
    (hna : isNoArch name = false)
    (hrc : env.repair_returncode ≠ 0)
    (hmark : strIn "no elf" (pyLower env.repair_stderr) = false)
    (hws : env.repair_stderr.toList.all isPySpace = true)
    (hdl2 : env2.download_ok = true) (hparts2 : 2 ≤ (pySplitDash name2).length)
    (hna2 : isNoArch name2 = false)
    (hrc2 : env2.repair_returncode = 0)
    (hout2 : env2.out_listing.filter (fun f => strEndsWith f ".whl") ≠ [])
    (htag2 : inMap (resolve_py_tag name2) = true)
    (hvenv2 : env2.venv_ok = true)
    (hpip2 : env2.pip_returncode ≠ 0)
    (hws2 : env2.pip_stderr.toList.all isPySpace = true) :
    process_wheel env name = Except.error PyErr.indexError
  ∧ process_wheel env2 name2 = Except.error PyErr.indexError := by
  have hlt : ¬ (pySplitDash name).length < 2 := by omega
  have hlt2 : ¬ (pySplitDash name2).length < 2 := by omega
  constructor
  · simp [process_wheel, nativePath, hdl, hna, hrc, hmark, hlt,
      lastLine_of_space env.repair_stderr hws]
  · obtain ⟨w, ws, hcons⟩ := List.exists_cons_of_ne_nil hout2
    simp [process_wheel, nativePath, afterRepair, hdl2, hna2, hrc2, hcons, htag2,
      hvenv2, hpip2, hlt2, lastLine_of_space env2.pip_stderr hws2]

/-- Witness for `empty_stderr_raises_index_error`. -/
theorem empty_stderr_raises_index_error_witness :
    process_wheel c9Env "foo-1.0-cp311-cp311-linux_ppc64le.whl" = Except.error PyErr.indexError
  ∧ process_wheel c9Env2 "foo-1.0-cp311-cp311-linux_ppc64le.whl" = Except.error PyErr.indexError :=
  empty_stderr_raises_index_error c9Env c9Env2
    "foo-1.0-cp311-cp311-linux_ppc64le.whl" "foo-1.0-cp311-cp311-linux_ppc64le.whl"
    (by decide) (by decide) (by decide) (by decide) (by decide) (by decide)
    (by decide) (by decide) (by decide) (by decide) (by decide) (by decide)
    (by decide) (by decide) (by decide)

/-- Claim C10 (confirmed): a filename with no `cp`+digits token resolves
to the fallback tag `cp313`, which is in `PYTHON_BIN_MAP`; consequently
the resolved tag can be unknown only when the filename carries an
explicit interpreter tag that is absent from the map. -/
theorem fallback_tag_always_known (name name2 : String)
    (h1 : extract_python_tag name = none)
    (h2 : inMap (resolve_py_tag name2) = false) :
    mapContains PYTHON_BIN_MAP "cp313" = true
  ∧ resolve_py_tag name = some "cp313"
  ∧ ∃ t, extract_python_tag name2 = some t ∧ mapContains PYTHON_BIN_MAP t = false := by
  refine ⟨rfl, ?_, ?_⟩
  · have hr : resolve_py_tag name = resolveAbi3 name fallbackTag := by
      unfold resolve_py_tag
      rw [h1]
    rw [hr]
    unfold resolveAbi3
    simp [show inMap fallbackTag = true from rfl, show fallbackTag = some "cp313" from rfl,
      show inMap (some "cp313") = true from rfl]
  · cases hext : extract_python_tag name2 with
    | none =>
        exfalso
        have hr : resolve_py_tag name2 = resolveAbi3 name2 fallbackTag := by
          unfold resolve_py_tag
          rw [hext]
        rw [hr] at h2
        unfold resolveAbi3 at h2
        by_cases hab : (strIn "abi3" name2 && !(inMap fallbackTag)) = true
        · rw [if_pos hab] at h2
          exact absurd h2 (by decide)
        · rw [if_neg hab] at h2
          exact absurd h2 (by decide)
    | some t =>
        have hr : resolve_py_tag name2 = resolveAbi3 name2 (some t) := by
          unfold resolve_py_tag
          rw [hext]
        rw [hr] at h2
        unfold resolveAbi3 at h2
        by_cases hm : mapContains PYTHON_BIN_MAP t = true
        · simp [inMap, hm] at h2
        · exact ⟨t, rfl, by simpa using hm⟩

/-- Witness for `fallback_tag_always_known`. -/
theorem fallback_tag_always_known_witness :
    mapContains PYTHON_BIN_MAP "cp313" = true
  ∧ resolve_py_tag "foo-1.0-py3-none-any.whl" = some "cp313"
  ∧ ∃ t, extract_python_tag "bar-1.0-cp38-cp38-linux_ppc64le.whl" = some t
      ∧ mapContains PYTHON_BIN_MAP t = false :=
  fallback_tag_always_known "foo-1.0-py3-none-any.whl" "bar-1.0-cp38-cp38-linux_ppc64le.whl"
    rfl (by decide)

end AuditwheelRepair
